import Mathlib

/-!
Verification of the Swing Notes backend (Express/PostgreSQL note-taking API).

The development shallow-embeds the authentication layer, the user and note
services, the persistence layer's SQL behaviour and the boundary error
handler as executable Lean definitions, and settles the specification's
claims about them.  JavaScript falsy checks (`!x` on possibly-undefined or
empty strings, `x || default`) are modelled explicitly; database rows are
lists of records; timestamps are natural numbers supplied as parameters;
external libraries (bcryptjs, jsonwebtoken, Joi, pg) are modelled from
their documented contracts at the call sites the repository uses.
-/

/-- Operational error carried through the services (src/utils/appError.js).
The `status` field of the JS class is computed from the status code; it is
modelled by `appStatus` below. -/
structure AppError where
  message : String
  statusCode : Nat
deriving DecidableEq, Repr

/-- Leading decimal digit of a number, computed by repeated division; the
first argument is fuel (the number itself suffices, since `n / 10 < n`). -/
def leadDigit : Nat → Nat → Nat
  | 0, n => n
  | fuel + 1, n => if n < 10 then n else leadDigit fuel (n / 10)

/-- Status string computed in the AppError constructor:
`` `${statusCode}`.startsWith("4") ? "fail" : "error" ``.  The decimal
string of a number starts with the character "4" exactly when its leading
decimal digit is 4. -/
def appStatus (statusCode : Nat) : String :=
  if leadDigit statusCode statusCode = 4 then "fail" else "error"

/-- Checks that the first list is a prefix of the second
(character-by-character, Boolean). -/
def startsWithL : List Char → List Char → Bool
  | [], _ => true
  | _ :: _, [] => false
  | a :: as, b :: bs => a == b && startsWithL as bs

/-- Checks that the first list occurs as a contiguous sublist of the second
(JS `String.prototype.includes`). -/
def isSubstr (needle : List Char) : List Char → Bool
  | [] => startsWithL needle []
  | c :: rest => startsWithL needle (c :: rest) || isSubstr needle rest

/-- An error object as seen by the boundary error handler: either a
constructed `AppError`, or a raw thrown value with whatever fields it
happens to carry (modelling arbitrary JS exceptions, including pg driver
errors with `code` and `constraint`). -/
inductive CaughtError where
  | app (e : AppError)
  | raw (statusCode : Option Nat) (message : Option String)
        (status : Option String) (code : Option String)
        (constr : Option String)
deriving DecidableEq, Repr

/-- The `{status, message}` JSON body plus HTTP status emitted to the client. -/
structure ErrorResponse where
  httpStatus : Nat
  status : String
  message : String
deriving DecidableEq, Repr

/-- JavaScript `v || d` for a possibly-absent number field (0 and undefined
are falsy). -/
def jsOrNat (v : Option Nat) (d : Nat) : Nat :=
  match v with
  | some n => if n = 0 then d else n
  | none => d

/-- JavaScript `v || d` for a possibly-absent string field (the empty string
and undefined are falsy). -/
def jsOrStr (v : Option String) (d : String) : String :=
  match v with
  | some s => if s = "" then d else s
  | none => d

/-- Truthiness-guarded `err.constraint && err.constraint.includes("username")`. -/
def constraintMentionsUsername (constr : Option String) : Bool :=
  match constr with
  | some c => c ≠ "" && isSubstr "username".data c.data
  | none => false

/-- Boundary error handler (the global Express error middleware).  Defaults
are taken from the thrown value's own fields with JS truthiness; an
`AppError` overrides them with its constructed fields; a raw pg
unique-violation on a username constraint (code 23505) is mapped to
409 Conflict. -/
def errorHandler (err : CaughtError) : ErrorResponse :=
  match err with
  | .app e => ⟨e.statusCode, appStatus e.statusCode, e.message⟩
  | .raw sc msg st code constr =>
    if code == some "23505" && constraintMentionsUsername constr then
      ⟨409, "fail", "Username already exists."⟩
    else
      ⟨jsOrNat sc 500, jsOrStr st "error", jsOrStr msg "Something went wrong!"⟩

/-- Row of the `users` table (src/models/userModel.js, README schema). -/
structure User where
  id : Nat
  username : String
  passwordHash : String
  createdAt : Nat
deriving DecidableEq, Repr

/-- The users store together with the id the database will assign to the
next inserted row (modelling the generated primary key). -/
structure UserDb where
  users : List User
  nextId : Nat
deriving DecidableEq, Repr

/-- Model of a signed JWT as produced by `jwt.sign({ id: userId }, secret,
{ expiresIn, algorithm })` (src/utils/jwtToken.js, jsonwebtoken contract):
the payload's `id`, the secret the token was signed with (standing for the
HMAC signature), the issue and expiry instants and the algorithm name. -/
structure Token where
  payloadId : Nat
  secret : String
  iat : Nat
  exp : Nat
  algorithm : String
deriving DecidableEq, Repr

/-- Token issuance (src/utils/jwtToken.js `createJwtToken`): signs the
payload `{ id: userId }` with the secret; the lifetime is in seconds. -/
def createJwtToken (userId : Nat) (secret : String) (expiresInSec : Nat)
    (now : Nat) (algorithm : String := "HS256") : Token :=
  ⟨userId, secret, now, now + expiresInSec, algorithm⟩

/-- Error classes thrown by `jwt.verify` (jsonwebtoken contract), matched by
name in src/middleware/auth.js. -/
inductive JwtLibError where
  | jsonWebTokenError
  | tokenExpiredError
  | otherError
deriving DecidableEq, Repr

/-- Model of `jwt.verify(token, secret)`: fails with `JsonWebTokenError`
when the signature does not match the secret, with `TokenExpiredError` when
the expiry has passed, and otherwise yields the decoded payload id. -/
def jwtVerify (t : Token) (secret : String) (now : Nat) : Except JwtLibError Nat :=
  if t.secret ≠ secret then .error .jsonWebTokenError
  else if t.exp ≤ now then .error .tokenExpiredError
  else .ok t.payloadId

/-- Lookup of a user row by username (src/models/userModel.js
`findUserByUsername`: `SELECT ... WHERE username = $1`, first row or null). -/
def findUserByUsername (db : List User) (username : String) : Option User :=
  db.find? (fun u => u.username == username)

/-- Insert of a user row (src/models/userModel.js `createUser`).  The
`users.username` column is UNIQUE, so inserting a taken username makes
`pool.query` reject with pg error 23505; the surrounding catch block
swallows that error and rethrows `AppError("Could not create user.", 500)`.
On success the INSERT .. RETURNING row is the new user. -/
def createUser (db : UserDb) (username passwordHash : String) (now : Nat) :
    Except AppError (User × UserDb) :=
  if db.users.any (fun u => u.username == username) then
    .error ⟨"Could not create user.", 500⟩
  else
    let u : User := ⟨db.nextId, username, passwordHash, now⟩
    .ok (u, ⟨db.users ++ [u], db.nextId + 1⟩)

/-- Data returned by signup and login (src/services/userService.js):
`{ id, username, token }`. -/
structure AuthResult where
  id : Nat
  username : String
  token : Token
deriving DecidableEq, Repr

/-- Registration service (src/services/userService.js `signup`).  The
password hasher (bcryptjs) is passed as a function.  Presence checks model
the JS falsy test on strings; the two storage accesses (username pre-check
and insert) act on the same database snapshot — the interleaved variant is
`signupRace` below. -/
def signup (hash : String → String) (db : UserDb) (username password : String)
    (secret : String) (lifetimeSec now : Nat) :
    Except AppError (AuthResult × UserDb) :=
  if username = "" ∨ password = "" then
    .error ⟨"Username and password are required.", 400⟩
  else if 50 < username.length ∨ password.length < 6 then
    .error ⟨"Invalid username or password format.", 400⟩
  else
    match findUserByUsername db.users username with
    | some _ => .error ⟨"Username already exists.", 409⟩
    | none =>
      match createUser db username (hash password) now with
      | .error e => .error e
      | .ok (newUser, db') =>
        .ok (⟨newUser.id, newUser.username,
              createJwtToken newUser.id secret lifetimeSec now⟩, db')

/-- Registration with the two storage accesses hitting different database
snapshots: `dbCheck` is the state when `findUserByUsername` runs and
`dbInsert` the state when `createUser` runs, modelling a concurrent
registration committing in between (§5 of the spec). -/
def signupRace (hash : String → String) (dbCheck dbInsert : UserDb)
    (username password : String) (secret : String) (lifetimeSec now : Nat) :
    Except AppError AuthResult :=
  if username = "" ∨ password = "" then
    .error ⟨"Username and password are required.", 400⟩
  else if 50 < username.length ∨ password.length < 6 then
    .error ⟨"Invalid username or password format.", 400⟩
  else
    match findUserByUsername dbCheck.users username with
    | some _ => .error ⟨"Username already exists.", 409⟩
    | none =>
      match createUser dbInsert username (hash password) now with
      | .error e => .error e
      | .ok (newUser, _) =>
        .ok ⟨newUser.id, newUser.username,
             createJwtToken newUser.id secret lifetimeSec now⟩

/-- The error thrown on both login failure paths. -/
def invalidCredentialsError : AppError := ⟨"Invalid credentials.", 401⟩

/-- Login service (src/services/userService.js `login`).  The bcrypt
comparison is passed as a function `compare plaintext storedHash`. -/
def login (compare : String → String → Bool) (db : List User)
    (username password : String) (secret : String) (lifetimeSec now : Nat) :
    Except AppError AuthResult :=
  if username = "" ∨ password = "" then
    .error ⟨"Username and password are required.", 400⟩
  else
    match findUserByUsername db username with
    | none => .error invalidCredentialsError
    | some user =>
      if compare password user.passwordHash then
        .ok ⟨user.id, user.username,
             createJwtToken user.id secret lifetimeSec now⟩
      else .error invalidCredentialsError

/-- Row of the `notes` table (src/models/noteModel.js, README schema). -/
structure Note where
  id : Nat
  userId : Nat
  title : String
  text : String
  createdAt : Nat
  modifiedAt : Nat
deriving DecidableEq, Repr

/-- Partial update payload for a note: the fields present in the request
body after validation (`updates.title` / `updates.text`, possibly absent). -/
structure NoteUpdates where
  title : Option String
  text : Option String
deriving DecidableEq, Repr

/-- Ownership-scoped single-note lookup (src/models/noteModel.js
`getNoteByIdAndUserId`: `SELECT ... WHERE id = $1 AND user_id = $2`, first
row or null). -/
def getNoteByIdAndUserId (db : List Note) (noteId userId : Nat) : Option Note :=
  db.find? (fun n => n.id == noteId && n.userId == userId)

/-- Effect of the SQL UPDATE on one row: supplied fields are overwritten and
the `update_note_modified_at` trigger sets `modified_at = NOW()`. -/
def applyUpdates (n : Note) (u : NoteUpdates) (now : Nat) : Note :=
  { n with
    title := u.title.getD n.title
    text := u.text.getD n.text
    modifiedAt := now }

/-- Scoped note update (src/models/noteModel.js `updateNote`): returns null
without touching storage when no updatable field is supplied, otherwise
runs `UPDATE notes SET ... WHERE id = $1 AND user_id = $2 RETURNING *` and
yields the returned row (or null when no row matched) plus the new table
state.  `now` is the clock value the trigger writes into `modified_at`. -/
def updateNote (db : List Note) (noteId userId : Nat) (u : NoteUpdates)
    (now : Nat) : Option Note × List Note :=
  if u.title = none ∧ u.text = none then (none, db)
  else
    match getNoteByIdAndUserId db noteId userId with
    | none => (none, db)
    | some n =>
      (some (applyUpdates n u now),
       db.map (fun m =>
         if m.id == noteId && m.userId == userId then applyUpdates m u now
         else m))

/-- Scoped note deletion (src/models/noteModel.js `deleteNote`:
`DELETE ... WHERE id = $1 AND user_id = $2`, success is rowCount > 0). -/
def deleteNote (db : List Note) (noteId userId : Nat) : Bool × List Note :=
  (db.any (fun n => n.id == noteId && n.userId == userId),
   db.filter (fun n => !(n.id == noteId && n.userId == userId)))

/-- Storage operations the note services can issue against the notes table,
as recorded in execution traces.  `findById` is an unscoped fetch (by note
id alone); the constructor exists so that its absence from every trace is
expressible. -/
inductive StoreOp where
  | findByIdAndUser (noteId userId : Nat)
  | findById (noteId : Nat)
  | updateScoped (noteId userId : Nat)
  | deleteScoped (noteId userId : Nat)
deriving DecidableEq, Repr

deriving instance DecidableEq for Except

/-- Outcome of a note-service call: the thrown-or-returned result, the
notes table afterwards, and the trace of storage operations issued. -/
structure ServiceOutcome (α : Type) where
  result : Except AppError α
  post : List Note
  trace : List StoreOp
deriving DecidableEq, Repr

/-- Note update service (noteService.js `updateNoteService`): scoped
existence lookup first — absent or not-owned both throw the same 404 — then
the scoped UPDATE. -/
def updateNoteService (db : List Note) (noteId userId : Nat) (u : NoteUpdates)
    (now : Nat) : ServiceOutcome Note :=
  match getNoteByIdAndUserId db noteId userId with
  | none =>
    ⟨.error ⟨"Note not found or you do not have permission to update it.", 404⟩,
     db, [.findByIdAndUser noteId userId]⟩
  | some _ =>
    match updateNote db noteId userId u now with
    | (none, db') =>
      ⟨.error ⟨"Failed to update note. Please try again.", 500⟩, db',
       [.findByIdAndUser noteId userId, .updateScoped noteId userId]⟩
    | (some n, db') =>
      ⟨.ok n, db',
       [.findByIdAndUser noteId userId, .updateScoped noteId userId]⟩

/-- Note deletion service (noteService.js `deleteNoteService`): same scoped
lookup, then the scoped DELETE. -/
def deleteNoteService (db : List Note) (noteId userId : Nat) :
    ServiceOutcome Bool :=
  match getNoteByIdAndUserId db noteId userId with
  | none =>
    ⟨.error ⟨"Note not found or you do not have permission to delete it.", 404⟩,
     db, [.findByIdAndUser noteId userId]⟩
  | some _ =>
    match deleteNote db noteId userId with
    | (false, db') =>
      ⟨.error ⟨"Failed to delete note. Please try again.", 500⟩, db',
       [.findByIdAndUser noteId userId, .deleteScoped noteId userId]⟩
    | (true, db') =>
      ⟨.ok true, db',
       [.findByIdAndUser noteId userId, .deleteScoped noteId userId]⟩

/-- Table state after a sequence of update-service calls, each given as
(noteId, callerId, updates, clock). -/
def applyUpdateSeq (db : List Note) :
    List (Nat × Nat × NoteUpdates × Nat) → List Note
  | [] => db
  | (noteId, userId, u, now) :: rest =>
    applyUpdateSeq (updateNoteService db noteId userId u now).post rest

/-- Lower-cases a character list (PostgreSQL ILIKE compares both sides
case-insensitively, equivalent to lower() on both). -/
def lcList (l : List Char) : List Char := l.map Char.toLower

/-- All suffixes of a character list, the list itself first. -/
def suffixesL : List Char → List (List Char)
  | [] => [[]]
  | c :: s => (c :: s) :: suffixesL s

/-- PostgreSQL LIKE pattern matching over character lists: the default
escape character `\` makes the following pattern character literal
(whatever it is, including `%`, `_` and `\` itself), `%` matches any
sequence (the rest of the pattern may resume at any suffix), `_` matches
exactly one character, anything else matches itself.  A pattern ending in
a dangling escape raises an error in PostgreSQL; it is modelled as
matching nothing, and cannot arise from the patterns `%term%` this model
is applied to, since every escape consumes the following character and
those patterns end in `%`. -/
def likeMatch : List Char → List Char → Bool
  | [], s => s.isEmpty
  | p :: ps, s =>
    if p = '\\' then
      match ps with
      | [] => false
      | e :: ps2 =>
        match s with
        | [] => false
        | c :: s' => e == c && likeMatch ps2 s'
    else if p = '%' then (suffixesL s).any (fun t => likeMatch ps t)
    else
      match s with
      | [] => false
      | c :: s' => (if p = '_' then true else p == c) && likeMatch ps s'

/-- PostgreSQL `title ILIKE pattern`: case-insensitive LIKE (both sides
lowered; lowering moves neither wildcards nor the escape character). -/
def ilikeMatch (pattern s : String) : Bool :=
  likeMatch (lcList pattern.data) (lcList s.data)

/-- True when the list contains neither LIKE wildcard (`%`, `_`) nor the
LIKE escape character (`\`): such a term reads literally inside a LIKE
pattern. -/
def noWild (l : List Char) : Bool :=
  l.all (fun c => !(c == '%' || c == '_' || c == '\\'))

/-- Inserts a note into a list kept in descending `modified_at` order. -/
def insertDesc (n : Note) : List Note → List Note
  | [] => [n]
  | m :: ms =>
    if m.modifiedAt ≤ n.modifiedAt then n :: m :: ms else m :: insertDesc n ms

/-- Sorts notes by `modified_at` descending (`ORDER BY modified_at DESC`). -/
def sortByModifiedDesc (l : List Note) : List Note :=
  l.foldr insertDesc []

/-- Scoped title search (src/models/noteModel.js `searchNotesByTitle`:
`SELECT ... WHERE user_id = $1 AND title ILIKE $2 ORDER BY modified_at
DESC` with the pattern `'%' + searchTerm + '%'`).  The interpolation means
wildcard characters inside the search term keep their LIKE meaning. -/
def searchNotesByTitle (db : List Note) (userId : Nat) (searchTerm : String) :
    List Note :=
  sortByModifiedDesc
    (db.filter (fun n =>
      n.userId == userId && ilikeMatch ("%" ++ searchTerm ++ "%") n.title))

/-- JavaScript `String.prototype.trim` on a character list: strips
whitespace from both ends. -/
def trimL (l : List Char) : List Char :=
  ((l.dropWhile Char.isWhitespace).reverse.dropWhile Char.isWhitespace).reverse

/-- Search endpoint behaviour (src/controllers/noteController.js
`searchNotes` composed with noteService/noteModel): a missing, empty or
whitespace-only `q` throws 400 before any storage access; otherwise the
response is a success carrying the matches and a message that depends on
whether any note matched. -/
def searchNotesController (db : List Note) (userId : Nat) (q : Option String) :
    Except AppError (String × List Note) :=
  match q with
  | none => .error ⟨"Search query (q) is required.", 400⟩
  | some term =>
    if term = "" ∨ trimL term.data = [] then
      .error ⟨"Search query (q) is required.", 400⟩
    else
      let notes := searchNotesByTitle db userId term
      let message :=
        if notes.length = 0 then "No notes found matching your search criteria."
        else "Notes found successfully!"
      .ok (message, notes)

/-- Search as the claim words it (for comparison with the implementation):
exactly the caller's notes whose title contains the term as a
case-insensitive substring, ordered most-recently-modified first. -/
def specSearchNotes (db : List Note) (userId : Nat) (term : String) :
    List Note :=
  sortByModifiedDesc
    (db.filter (fun n =>
      n.userId == userId && isSubstr (lcList term.data) (lcList n.title.data)))

/-- JavaScript `String.prototype.split(" ")` on a character list: splits on
every single space, keeping empty segments (`"a  b"` gives three parts). -/
def splitSp : List Char → List (List Char)
  | [] => [[]]
  | c :: rest =>
    let r := splitSp rest
    if c = ' ' then [] :: r
    else
      match r with
      | [] => [[c]]
      | x :: xs => (c :: x) :: xs

/-- Missing-token error of the request authenticator. -/
def notLoggedInError : AppError :=
  ⟨"You are not logged in! Please log in to get access.", 401⟩

/-- Malformed/invalid-signature error of the request authenticator. -/
def invalidTokenError : AppError := ⟨"Invalid token. Please log in again.", 401⟩

/-- Expired-token error of the request authenticator. -/
def expiredTokenError : AppError :=
  ⟨"Your token has expired! Please log in again.", 401⟩

/-- Catch-all authentication error of the request authenticator. -/
def authFailedError : AppError := ⟨"Failed to authenticate token.", 401⟩

/-- Token extraction from the Authorization header
(src/middleware/auth.js): when the header is present and starts with the
string `"Bearer"`, the token is `header.split(" ")[1]` — possibly undefined
(no second segment) or the empty string (double space). -/
def bearerToken (header : Option String) : Option (List Char) :=
  match header with
  | some h =>
    if startsWithL "Bearer".data h.data then (splitSp h.data)[1]?
    else none
  | none => none

/-- Mapping of `jwt.verify` outcomes to middleware results: the error class
name selects the AppError (src/middleware/auth.js catch block). -/
def jwtDispatch (v : Except JwtLibError Nat) : Except AppError Nat :=
  match v with
  | .ok uid => .ok uid
  | .error .jsonWebTokenError => .error invalidTokenError
  | .error .tokenExpiredError => .error expiredTokenError
  | .error .otherError => .error authFailedError

/-- Request authenticator (src/middleware/auth.js `authMiddleware`).
`verify` is `jwt.verify` with the deployment secret applied; the JS
`if (!token)` treats both an undefined and an empty extracted token as
missing. -/
def authMiddleware (verify : List Char → Except JwtLibError Nat)
    (header : Option String) : Except AppError Nat :=
  match bearerToken header with
  | none => .error notLoggedInError
  | some t =>
    if t = [] then .error notLoggedInError
    else jwtDispatch (verify t)

/-- One field of a Joi object schema as used in src/utils/validation.js:
the requiredness, the length bounds, and the configured message for each
rule that can fire ("string.empty" fires on the empty string before the
min rule; "any.required" fires on a missing required field). -/
structure FieldSpec where
  fname : String
  required : Bool
  minLen : Nat
  maxLen : Option Nat
  requiredMsg : String
  emptyMsg : String
  minMsg : String
  maxMsg : String
deriving DecidableEq, Repr

/-- A Joi object schema: its fields plus an optional `.min(n)` key-count
rule (used by the note-update schema). -/
structure ObjectSchema where
  fields : List FieldSpec
  minKeys : Nat
  minKeysMsg : String
deriving DecidableEq, Repr

/-- Messages produced by one field for one (possibly absent) value, per
Joi's per-rule evaluation order. -/
def fieldErrors (f : FieldSpec) (v : Option String) : List String :=
  match v with
  | none => if f.required then [f.requiredMsg] else []
  | some s =>
    if s.length = 0 then [f.emptyMsg]
    else if s.length < f.minLen then [f.minMsg]
    else
      match f.maxLen with
      | some m => if m < s.length then [f.maxMsg] else []
      | none => []

/-- A request payload: the present keys with their string values. -/
abbrev Payload : Type := List (String × String)

/-- Value of a payload key, when present. -/
def lookupField (p : Payload) (name : String) : Option String :=
  (List.find? (fun kv => kv.1 == name) p).map (fun kv => kv.2)

/-- Default Joi message for an unknown key (`"key" is not allowed`). -/
def joiNotAllowedMsg (name : String) : String :=
  "\"" ++ name ++ "\" is not allowed"

/-- Every violation message Joi collects for a payload under
`abortEarly: false`: one message per violated rule of every schema field,
then the object-level key-count rule, then unknown-key violations. -/
def violationMessages (sch : ObjectSchema) (p : Payload) : List String :=
  (sch.fields.flatMap (fun f => fieldErrors f (lookupField p f.fname))) ++
  (if p.length < sch.minKeys then [sch.minKeysMsg] else []) ++
  ((p.filter (fun kv => sch.fields.all (fun f => f.fname ≠ kv.1))).map
    (fun kv => joiNotAllowedMsg kv.1))

/-- JavaScript `Array.prototype.join(", ")`. -/
def joinMsgs : List String → String
  | [] => ""
  | [m] => m
  | m :: rest => m ++ ", " ++ joinMsgs rest

/-- Validation entry point (src/utils/validation.js `validate`): runs the
schema with `abortEarly: false`, joins all collected messages with ", "
into one 400 AppError, and returns the validated value unchanged otherwise
(the schemas apply no defaults or casts to string inputs). -/
def validate (sch : ObjectSchema) (p : Payload) : Except AppError Payload :=
  match violationMessages sch p with
  | [] => .ok p
  | msgs => .error ⟨joinMsgs msgs, 400⟩

/-- Signup schema (username required 3..50, password required ≥ 6). -/
def signupSchema : ObjectSchema :=
  ⟨[⟨"username", true, 3, some 50,
     "Username is required.", "Username cannot be empty.",
     "Username must be at least 3 characters long.",
     "Username cannot exceed 50 characters."⟩,
    ⟨"password", true, 6, none,
     "Password is required.", "Password cannot be empty.",
     "Password must be at least 6 characters long.", ""⟩],
   0, ""⟩

/-- Login schema (both fields required, non-empty). -/
def loginSchema : ObjectSchema :=
  ⟨[⟨"username", true, 0, none,
     "Username is required.", "Username cannot be empty.", "", ""⟩,
    ⟨"password", true, 0, none,
     "Password is required.", "Password cannot be empty.", "", ""⟩],
   0, ""⟩

/-- Note-creation schema (title required 1..50, text required 1..300). -/
def createNoteSchema : ObjectSchema :=
  ⟨[⟨"title", true, 1, some 50,
     "Title is required.", "Title cannot be empty.",
     "Title must be at least 1 character long.",
     "Title cannot exceed 50 characters."⟩,
    ⟨"text", true, 1, some 300,
     "Text is required.", "Text cannot be empty.",
     "Text must be at least 1 character long.",
     "Text cannot exceed 300 characters."⟩],
   0, ""⟩

/-- Note-update schema (both fields optional with length bounds, at least
one key required; unconfigured rules fall back to Joi default messages). -/
def updateNoteSchema : ObjectSchema :=
  ⟨[⟨"title", false, 1, some 50,
     "\"title\" is required", "\"title\" is not allowed to be empty",
     "Title must be at least 1 character long.",
     "Title cannot exceed 50 characters."⟩,
    ⟨"text", false, 1, some 300,
     "\"text\" is required", "\"text\" is not allowed to be empty",
     "Text must be at least 1 character long.",
     "Text cannot exceed 300 characters."⟩],
   1, "\"value\" must have at least 1 key"⟩

/-- When no row satisfies the scoped predicate, the scoped lookup is empty. -/
theorem getNoteByIdAndUserId_eq_none {db : List Note} {noteId userId : Nat}
    (h : ∀ n ∈ db, ¬(n.id = noteId ∧ n.userId = userId)) :
    getNoteByIdAndUserId db noteId userId = none := by
  apply List.find?_eq_none.mpr
  intro n hn
  simp only [Bool.and_eq_true, beq_iff_eq]
  intro hc
  exact h n hn hc

/-- C1.  For every caller identity and note id, when no note in the table
has both that id and that owner — which covers both a nonexistent note and
a note owned by a different user — the update and delete services each fail
with the same fixed 404 `AppError` (kind and message independent of which
of the two situations holds, so the caller cannot distinguish them), and
the notes table is left unchanged. -/
theorem noteMutationNotFoundUniform (db : List Note) (noteId caller : Nat)
    (u : NoteUpdates) (now : Nat)
    (h : ∀ n ∈ db, ¬(n.id = noteId ∧ n.userId = caller)) :
    updateNoteService db noteId caller u now =
      ⟨.error ⟨"Note not found or you do not have permission to update it.", 404⟩,
       db, [.findByIdAndUser noteId caller]⟩ ∧
    deleteNoteService db noteId caller =
      ⟨.error ⟨"Note not found or you do not have permission to delete it.", 404⟩,
       db, [.findByIdAndUser noteId caller]⟩ := by
  have hf := getNoteByIdAndUserId_eq_none h
  constructor
  · simp [updateNoteService, hf]
  · simp [deleteNoteService, hf]

/-- Witness for C1: user 2 attacks note 1 owned by user 1 (not-owned case)
and note 99 (nonexistent case); both update and delete yield the pinned
404 errors and leave the table untouched. -/
theorem noteMutationNotFoundUniform_witness :
    (∀ n ∈ [(⟨1, 1, "t", "x", 0, 0⟩ : Note)], ¬(n.id = 1 ∧ n.userId = 2)) ∧
    updateNoteService [⟨1, 1, "t", "x", 0, 0⟩] 1 2 ⟨some "c", none⟩ 9 =
      ⟨.error ⟨"Note not found or you do not have permission to update it.", 404⟩,
       [⟨1, 1, "t", "x", 0, 0⟩], [.findByIdAndUser 1 2]⟩ ∧
    deleteNoteService [⟨1, 1, "t", "x", 0, 0⟩] 99 2 =
      ⟨.error ⟨"Note not found or you do not have permission to delete it.", 404⟩,
       [⟨1, 1, "t", "x", 0, 0⟩], [.findByIdAndUser 99 2]⟩ :=
  ⟨by decide,
   (noteMutationNotFoundUniform [⟨1, 1, "t", "x", 0, 0⟩] 1 2 ⟨some "c", none⟩ 9
     (by decide)).1,
   (noteMutationNotFoundUniform [⟨1, 1, "t", "x", 0, 0⟩] 99 2 ⟨some "c", none⟩ 9
     (by decide)).2⟩

/-- C3.  Every failing login — username not found, or username found but the
bcrypt comparison rejecting the password — produces the very same
`AppError`, the 401 with message "Invalid credentials.", for every hasher,
database and input. -/
theorem loginFailureUniform (compare : String → String → Bool)
    (db : List User) (u p secret : String) (lt now : Nat)
    (hu : u ≠ "") (hp : p ≠ "") :
    (findUserByUsername db u = none →
       login compare db u p secret lt now = .error invalidCredentialsError) ∧
    (∀ user, findUserByUsername db u = some user →
       compare p user.passwordHash = false →
       login compare db u p secret lt now = .error invalidCredentialsError) ∧
    invalidCredentialsError = ⟨"Invalid credentials.", 401⟩ := by
  refine ⟨?_, ?_, rfl⟩
  · intro hf
    simp [login, hu, hp, hf]
  · intro user hf hc
    simp [login, hu, hp, hf, hc]

/-- Witness for C3: with one stored user "alice", logging in as the unknown
"bob" and logging in as "alice" with a wrong password both produce exactly
`invalidCredentialsError`. -/
theorem loginFailureUniform_witness :
    login (fun p h => h == "H" ++ p) [⟨1, "alice", "Hsecret1", 0⟩]
        "bob" "pw" "s" 3600 0 = .error invalidCredentialsError ∧
    login (fun p h => h == "H" ++ p) [⟨1, "alice", "Hsecret1", 0⟩]
        "alice" "wrong" "s" 3600 0 = .error invalidCredentialsError :=
  ⟨(loginFailureUniform (fun p h => h == "H" ++ p) [⟨1, "alice", "Hsecret1", 0⟩]
      "bob" "pw" "s" 3600 0 (by decide) (by decide)).1 (by decide),
   (loginFailureUniform (fun p h => h == "H" ++ p) [⟨1, "alice", "Hsecret1", 0⟩]
      "alice" "wrong" "s" 3600 0 (by decide) (by decide)).2.1
     ⟨1, "alice", "Hsecret1", 0⟩ (by decide) (by decide)⟩

/-- C4.  The storage trace of every update-service and delete-service call
is exactly one ownership-scoped lookup — its predicate carrying both the
note id and the caller id — optionally followed by the one scoped mutation;
in particular no unscoped fetch (`StoreOp.findById`) ever occurs and no
second existence query precedes the mutation. -/
theorem noteMutationTrace (db : List Note) (noteId userId : Nat)
    (u : NoteUpdates) (now : Nat) :
    ((updateNoteService db noteId userId u now).trace =
        [.findByIdAndUser noteId userId] ∨
     (updateNoteService db noteId userId u now).trace =
        [.findByIdAndUser noteId userId, .updateScoped noteId userId]) ∧
    ((deleteNoteService db noteId userId).trace =
        [.findByIdAndUser noteId userId] ∨
     (deleteNoteService db noteId userId).trace =
        [.findByIdAndUser noteId userId, .deleteScoped noteId userId]) := by
  constructor
  · cases hf : getNoteByIdAndUserId db noteId userId with
    | none => left; simp [updateNoteService, hf]
    | some n =>
      right
      rcases h2 : updateNote db noteId userId u now with ⟨r, db2⟩
      cases r <;> simp [updateNoteService, hf, h2]
  · cases hf : getNoteByIdAndUserId db noteId userId with
    | none => left; simp [deleteNoteService, hf]
    | some n =>
      right
      rcases h2 : deleteNote db noteId userId with ⟨b, db2⟩
      cases b <;> simp [deleteNoteService, hf, h2]

/-- C2 (evidence of the divergence).  In the check-then-insert race the
loser's flow — username free at the pre-check snapshot, taken at the insert
snapshot — ends in `AppError("Could not create user.", 500)`, which the
boundary handler emits as a 500 `status:"error"` response, not the 409
Conflict `status:"fail"` response of the pre-check path.  The handler's own
23505 branch would produce exactly that Conflict response, but the model
layer's catch block prevents the pg error from ever reaching it. -/
theorem signupRaceInternalError :
    signupRace (fun s => "bcrypt" ++ s) ⟨[], 1⟩
        ⟨[⟨1, "alice", "bcryptsecret1", 0⟩], 2⟩
        "alice" "secret1" "topsecret" 3600 7
      = .error ⟨"Could not create user.", 500⟩ ∧
    errorHandler (.app ⟨"Could not create user.", 500⟩)
      = ⟨500, "error", "Could not create user."⟩ ∧
    errorHandler (.app ⟨"Username already exists.", 409⟩)
      = ⟨409, "fail", "Username already exists."⟩ ∧
    errorHandler (.raw none (some "duplicate key value violates unique constraint")
        none (some "23505") (some "users_username_key"))
      = ⟨409, "fail", "Username already exists."⟩ ∧
    (⟨500, "error", "Could not create user."⟩ : ErrorResponse)
      ≠ ⟨409, "fail", "Username already exists."⟩ := by
  decide

/-- Counterexample to C5 as stated.  A non-`AppError` exception is not
emitted with a generic message: the handler forwards the exception's own
message to the client — two raw exceptions differing only in their internal
message produce different client responses. -/
theorem errorHandlerLeaksRawMessage :
    errorHandler (.raw none (some "connect ECONNREFUSED 127.0.0.1:5432")
        none none none)
      = ⟨500, "error", "connect ECONNREFUSED 127.0.0.1:5432"⟩ ∧
    (errorHandler (.raw none (some "connect ECONNREFUSED 127.0.0.1:5432")
        none none none)).message ≠ "Something went wrong!" ∧
    errorHandler (.raw none (some "connect ECONNREFUSED 127.0.0.1:5432")
        none none none)
      ≠ errorHandler (.raw none (some "password authentication failed")
        none none none) := by
  decide

/-- C5 as amended.  Constructed 4xx service errors (BadRequest 400,
Unauthorized 401, NotFound 404, Conflict 409) surface as `status:"fail"`
with the original message; a constructed 500 `AppError` surfaces as
`status:"error"` with its own (service-written) message; a raw exception
carrying no fields of its own surfaces as a 500 `status:"error"` whose
message is the exception's own message when present and non-empty, and the
generic "Something went wrong!" only otherwise; a raw pg unique-violation
on a username constraint surfaces as the 409 Conflict response. -/
theorem errorHandlerMapping (e : AppError) (msg : Option String)
    (sc : Option Nat) (st code constr : Option String) :
    (e.statusCode = 400 ∨ e.statusCode = 401 ∨ e.statusCode = 404 ∨
        e.statusCode = 409 →
      errorHandler (.app e) = ⟨e.statusCode, "fail", e.message⟩) ∧
    (e.statusCode = 500 →
      errorHandler (.app e) = ⟨500, "error", e.message⟩) ∧
    (errorHandler (.raw none msg none none none)
      = ⟨500, "error", jsOrStr msg "Something went wrong!"⟩) ∧
    (constraintMentionsUsername constr = true →
      errorHandler (.raw sc msg st (some "23505") constr)
        = ⟨409, "fail", "Username already exists."⟩) := by
  refine ⟨?_, ?_, ?_, ?_⟩
  · rintro (h | h | h | h) <;>
      simp [errorHandler, appStatus, h] <;> decide
  · intro h
    simp [errorHandler, appStatus, h]
    decide
  · simp [errorHandler, constraintMentionsUsername, jsOrNat, jsOrStr]
  · intro h
    simp [errorHandler, h]

/-- Witness for the amended C5: a 404 service error, a 500 service error, a
messageless raw exception and a raw pg unique-violation each map to their
described responses. -/
theorem errorHandlerMapping_witness :
    errorHandler (.app ⟨"Note not found or you do not have permission to update it.", 404⟩)
      = ⟨404, "fail", "Note not found or you do not have permission to update it."⟩ ∧
    errorHandler (.app ⟨"Could not create note.", 500⟩)
      = ⟨500, "error", "Could not create note."⟩ ∧
    errorHandler (.raw none none none none none)
      = ⟨500, "error", "Something went wrong!"⟩ ∧
    errorHandler (.raw none (some "dup") none (some "23505") (some "notes_username_fk"))
      = ⟨409, "fail", "Username already exists."⟩ :=
  ⟨(errorHandlerMapping ⟨"Note not found or you do not have permission to update it.", 404⟩
      none none none none none).1 (by decide),
   (errorHandlerMapping ⟨"Could not create note.", 500⟩
      none none none none none).2.1 (by decide),
   (errorHandlerMapping ⟨"x", 0⟩ none none none none none).2.2.1,
   (errorHandlerMapping ⟨"x", 0⟩ (some "dup") none none none
      (some "notes_username_fk")).2.2.2 (by decide)⟩

/-- C6.  Every successful registration returns a token whose subject (the
signed payload id) is the id of the user row the registration created, and
verifying that token with the deployment secret at any instant before its
expiry yields exactly that id. -/
theorem signupTokenRoundTrip (hash : String → String) (db : UserDb)
    (username password secret : String) (lifetimeSec now : Nat)
    (r : AuthResult) (db2 : UserDb)
    (h : signup hash db username password secret lifetimeSec now = .ok (r, db2)) :
    r.token.payloadId = r.id ∧
    r.id = db.nextId ∧
    r.username = username ∧
    db2.users = db.users ++ [⟨db.nextId, username, hash password, now⟩] ∧
    r.token = createJwtToken r.id secret lifetimeSec now ∧
    (∀ t, t < now + lifetimeSec → jwtVerify r.token secret t = .ok r.id) := by
  unfold signup at h
  split at h
  · exact absurd h (by simp)
  split at h
  · exact absurd h (by simp)
  split at h
  · exact absurd h (by simp)
  rcases hc : createUser db username (hash password) now with e | ⟨newUser, dbN⟩ <;>
    rw [hc] at h
  · exact absurd h (by simp)
  simp only [Except.ok.injEq, Prod.mk.injEq] at h
  obtain ⟨hr, hdb⟩ := h
  unfold createUser at hc
  split at hc
  · exact absurd hc (by simp)
  simp only [Except.ok.injEq, Prod.mk.injEq] at hc
  obtain ⟨hnu, hdbN⟩ := hc
  subst hnu
  subst hdbN
  subst hr
  subst hdb
  refine ⟨rfl, rfl, rfl, rfl, rfl, ?_⟩
  intro t ht
  simp [jwtVerify, createJwtToken, Nat.not_le.mpr ht]

/-- Witness for C6: a concrete successful signup of "alice" into an empty
store; the issued token's subject is the created id 1 and verification at a
later instant inside the lifetime returns 1. -/
theorem signupTokenRoundTrip_witness :
    signup (fun s => "H" ++ s) ⟨[], 1⟩ "alice" "secret1" "tok" 3600 10
      = .ok (⟨1, "alice", ⟨1, "tok", 10, 3610, "HS256"⟩⟩,
             ⟨[⟨1, "alice", "Hsecret1", 10⟩], 2⟩) ∧
    (⟨1, "tok", 10, 3610, "HS256"⟩ : Token).payloadId = 1 ∧
    jwtVerify ⟨1, "tok", 10, 3610, "HS256"⟩ "tok" 100 = .ok 1 :=
  ⟨by decide,
   (signupTokenRoundTrip (fun s => "H" ++ s) ⟨[], 1⟩ "alice" "secret1" "tok"
      3600 10 ⟨1, "alice", ⟨1, "tok", 10, 3610, "HS256"⟩⟩
      ⟨[⟨1, "alice", "Hsecret1", 10⟩], 2⟩ (by decide)).1,
   (signupTokenRoundTrip (fun s => "H" ++ s) ⟨[], 1⟩ "alice" "secret1" "tok"
      3600 10 ⟨1, "alice", ⟨1, "tok", 10, 3610, "HS256"⟩⟩
      ⟨[⟨1, "alice", "Hsecret1", 10⟩], 2⟩ (by decide)).2.2.2.2.2 100 (by decide)⟩

/-- Splitting a list that contains no space yields the single whole
segment, matching JS `"nospace".split(" ") === ["nospace"]`. -/
theorem splitSp_no_space (l : List Char) (h : ' ' ∉ l) : splitSp l = [l] := by
  induction l with
  | nil => rfl
  | cons c rest ih =>
    have hc : ¬(c = ' ') := fun e => h (by simp [e])
    have hr : ' ' ∉ rest := fun m => h (List.mem_cons_of_mem _ m)
    simp [splitSp, hc, ih hr]

/-- C10.  A request whose Authorization header begins with the string
"Bearer" but contains no space has no second space-separated segment, so
token extraction yields nothing and the middleware fails with the
missing-token error ("not logged in"), which differs from the
invalid-token error; and whenever the header begins with "Bearer" and a
non-empty segment follows the first space, that segment is handed to
`jwt.verify` and its outcome decides the response. -/
theorem bearerNoSecondPart :
    (∀ (verify : List Char → Except JwtLibError Nat) (h : String),
       startsWithL "Bearer".data h.data = true → ' ' ∉ h.data →
       authMiddleware verify (some h) = .error notLoggedInError) ∧
    (∀ (verify : List Char → Except JwtLibError Nat) (h : String)
       (t : List Char),
       startsWithL "Bearer".data h.data = true →
       (splitSp h.data)[1]? = some t → t ≠ [] →
       authMiddleware verify (some h) = jwtDispatch (verify t)) ∧
    notLoggedInError ≠ invalidTokenError := by
  refine ⟨?_, ?_, by decide⟩
  · intro verify h hs hn
    have hsp : (splitSp h.data)[1]? = none := by
      rw [splitSp_no_space _ hn]
      rfl
    simp [authMiddleware, bearerToken, hs, hsp]
  · intro verify h t hs hsp ht
    simp [authMiddleware, bearerToken, hs, hsp, ht]

/-- Witness for C10: the headers "Bearer" and "Bearerabc" (no space) both
produce the missing-token error even though a verifier is available that
would reject the token, and "BearerX abc" hands "abc" to the verifier,
producing the invalid-token error instead. -/
theorem bearerNoSecondPart_witness :
    authMiddleware (fun _ => .error .jsonWebTokenError) (some "Bearer")
      = .error notLoggedInError ∧
    authMiddleware (fun _ => .error .jsonWebTokenError) (some "Bearerabc")
      = .error notLoggedInError ∧
    authMiddleware (fun _ => .error .jsonWebTokenError) (some "BearerX abc")
      = .error invalidTokenError :=
  ⟨bearerNoSecondPart.1 (fun _ => .error .jsonWebTokenError) "Bearer"
     (by decide) (by decide),
   bearerNoSecondPart.1 (fun _ => .error .jsonWebTokenError) "Bearerabc"
     (by decide) (by decide),
   by
     rw [bearerNoSecondPart.2.1 (fun _ => .error .jsonWebTokenError)
       "BearerX abc" ("abc".data) (by decide) (by decide) (by decide)]
     rfl⟩

/-- Identity-relevant fields of a note row: id, owner, creation time. -/
def noteKey (n : Note) : Nat × Nat × Nat := (n.id, n.userId, n.createdAt)

/-- Pointwise scoped updating of rows never changes any row's id, owner or
creation timestamp. -/
theorem map_applyUpdates_key (noteId userId : Nat) (u : NoteUpdates)
    (now : Nat) (l : List Note) :
    (l.map (fun m =>
        if m.id == noteId && m.userId == userId then applyUpdates m u now
        else m)).map noteKey = l.map noteKey := by
  induction l with
  | nil => rfl
  | cons a l ih =>
    simp only [List.map_cons, ih]
    congr 1
    split
    · rfl
    · rfl

/-- The table after any update-service call has the same rows in the same
positions as before as far as id, owner and creation time are concerned. -/
theorem updateServicePost_key_map (db : List Note) (noteId userId : Nat)
    (u : NoteUpdates) (now : Nat) :
    ((updateNoteService db noteId userId u now).post).map noteKey
      = db.map noteKey := by
  cases hf : getNoteByIdAndUserId db noteId userId with
  | none => simp [updateNoteService, hf]
  | some n =>
    rcases h2 : updateNote db noteId userId u now with ⟨r, db2⟩
    have hdb2 : db2.map noteKey = db.map noteKey := by
      unfold updateNote at h2
      split at h2
      · simp only [Prod.mk.injEq] at h2
        rw [← h2.2]
      · rw [hf] at h2
        simp only [Prod.mk.injEq] at h2
        rw [← h2.2]
        exact map_applyUpdates_key noteId userId u now db
    cases r <;> simp [updateNoteService, hf, h2, hdb2]

/-- C8.  First part: a successful update changes only the supplied fields
and the last-modified timestamp — id, owner, creation timestamp, and every
unsupplied field are those of the looked-up note, the supplied fields take
the supplied values, `modifiedAt` becomes the update instant and (with the
clock past the stored timestamp) strictly increases.  Second part: across
any sequence of update-service calls the table's ids, owners and creation
timestamps — in particular every note's `ownerId` — never change. -/
theorem updateFrame :
    (∀ (db : List Note) (noteId userId : Nat) (u : NoteUpdates) (now : Nat)
       (old n2 : Note),
       getNoteByIdAndUserId db noteId userId = some old →
       (updateNoteService db noteId userId u now).result = .ok n2 →
       n2.id = old.id ∧ n2.userId = old.userId ∧
       n2.createdAt = old.createdAt ∧
       (u.title = none → n2.title = old.title) ∧
       (u.text = none → n2.text = old.text) ∧
       (∀ s, u.title = some s → n2.title = s) ∧
       (∀ s, u.text = some s → n2.text = s) ∧
       n2.modifiedAt = now ∧
       (old.modifiedAt < now → old.modifiedAt < n2.modifiedAt)) ∧
    (∀ (db : List Note) (seq : List (Nat × Nat × NoteUpdates × Nat)),
       (applyUpdateSeq db seq).map noteKey = db.map noteKey) := by
  constructor
  · intro db noteId userId u now old n2 hf hok
    have hr : n2 = applyUpdates old u now := by
      by_cases hu : u.title = none ∧ u.text = none
      · exfalso
        unfold updateNoteService at hok
        rw [hf] at hok
        unfold updateNote at hok
        rw [if_pos hu] at hok
        simp at hok
      · unfold updateNoteService at hok
        rw [hf] at hok
        unfold updateNote at hok
        rw [if_neg hu, hf] at hok
        simp only [Except.ok.injEq] at hok
        exact hok.symm
    subst hr
    refine ⟨rfl, rfl, rfl, ?_, ?_, ?_, ?_, rfl, fun hlt => hlt⟩
    · intro h
      simp [applyUpdates, h]
    · intro h
      simp [applyUpdates, h]
    · intro s h
      simp [applyUpdates, h]
    · intro s h
      simp [applyUpdates, h]
  · intro db seq
    induction seq generalizing db with
    | nil => rfl
    | cons step rest ih =>
      rcases step with ⟨noteId, userId, u, now⟩
      calc (applyUpdateSeq db ((noteId, userId, u, now) :: rest)).map noteKey
          = (applyUpdateSeq (updateNoteService db noteId userId u now).post
              rest).map noteKey := rfl
        _ = ((updateNoteService db noteId userId u now).post).map noteKey :=
            ih _
        _ = db.map noteKey := updateServicePost_key_map db noteId userId u now

/-- Witness for C8: updating note 1 (owner 2) with a new title at instant 9
keeps id, owner, creation time and text, sets `modifiedAt` to 9 (a strict
increase over the stored 5), and a two-step update sequence leaves the
table's noteKey projection unchanged. -/
theorem updateFrame_witness :
    getNoteByIdAndUserId [⟨1, 2, "a", "b", 0, 5⟩] 1 2 = some ⟨1, 2, "a", "b", 0, 5⟩ ∧
    (updateNoteService [⟨1, 2, "a", "b", 0, 5⟩] 1 2 ⟨some "c", none⟩ 9).result
      = .ok ⟨1, 2, "c", "b", 0, 9⟩ ∧
    ((⟨1, 2, "c", "b", 0, 9⟩ : Note).userId = (⟨1, 2, "a", "b", 0, 5⟩ : Note).userId ∧
     (⟨1, 2, "c", "b", 0, 9⟩ : Note).text = (⟨1, 2, "a", "b", 0, 5⟩ : Note).text ∧
     (⟨1, 2, "a", "b", 0, 5⟩ : Note).modifiedAt < (⟨1, 2, "c", "b", 0, 9⟩ : Note).modifiedAt) ∧
    (applyUpdateSeq [⟨1, 2, "a", "b", 0, 5⟩]
        [(1, 2, ⟨some "c", none⟩, 9), (1, 2, ⟨none, some "d"⟩, 11)]).map noteKey
      = [⟨1, 2, "a", "b", 0, 5⟩].map noteKey :=
  ⟨by decide, by decide,
   (fun h =>
     ⟨h.2.1,
      h.2.2.2.2.1 rfl,
      h.2.2.2.2.2.2.2.2 (by decide)⟩)
     (updateFrame.1 [⟨1, 2, "a", "b", 0, 5⟩] 1 2 ⟨some "c", none⟩ 9
       ⟨1, 2, "a", "b", 0, 5⟩ ⟨1, 2, "c", "b", 0, 9⟩ (by decide) (by decide)),
   updateFrame.2 [⟨1, 2, "a", "b", 0, 5⟩]
     [(1, 2, ⟨some "c", none⟩, 9), (1, 2, ⟨none, some "d"⟩, 11)]⟩

/-- A list is a prefix of itself extended by anything. -/
theorem startsWithL_append (n t : List Char) : startsWithL n (n ++ t) = true := by
  induction n with
  | nil => rfl
  | cons a as ih => simp [startsWithL, ih]

/-- A prefix occurrence is in particular a substring occurrence. -/
theorem isSubstr_of_startsWithL {n h : List Char}
    (hp : startsWithL n h = true) : isSubstr n h = true := by
  cases h with
  | nil => exact hp
  | cons c rest => simp [isSubstr, hp]

/-- Substring occurrences survive prepending. -/
theorem isSubstr_append_left {n h : List Char} (pre : List Char)
    (hs : isSubstr n h = true) : isSubstr n (pre ++ h) = true := by
  induction pre with
  | nil => exact hs
  | cons c rest ih => simp [isSubstr, ih]

/-- Every message in the list occurs verbatim inside the ", "-joined string
(the shape of the 400 message built by `validate`). -/
theorem mem_joinMsgs_isSubstr {m : String} {msgs : List String}
    (hm : m ∈ msgs) : isSubstr m.data (joinMsgs msgs).data = true := by
  induction msgs with
  | nil => cases hm
  | cons m0 rest ih =>
    rcases List.mem_cons.mp hm with rfl | hm2
    · cases rest with
      | nil =>
        exact isSubstr_of_startsWithL
          (by simpa using startsWithL_append m.data [])
      | cons r rs =>
        have : (joinMsgs (m :: r :: rs)).data
            = m.data ++ (", " ++ joinMsgs (r :: rs)).data := by
          simp [joinMsgs, String.data_append]
        rw [this]
        exact isSubstr_of_startsWithL (startsWithL_append _ _)
    · cases rest with
      | nil => cases hm2
      | cons r rs =>
        have : (joinMsgs (m0 :: r :: rs)).data
            = (m0.data ++ (", ").data) ++ (joinMsgs (r :: rs)).data := by
          simp [joinMsgs, String.data_append]
        rw [this]
        exact isSubstr_append_left _ (ih hm2)

/-- C9.  For each of the four named schemas and every payload, validation
either succeeds returning the payload's (unmodified, hence normalized)
field values, or fails with a single 400 error whose message is the
", "-join of one message per violated rule across every field — in
particular every violated rule's message occurs inside the response
message, so two invalid fields yield both messages in one response, as the
concrete two-field signup failure shows. -/
theorem validationAccumulates :
    (∀ sch, sch = signupSchema ∨ sch = loginSchema ∨ sch = createNoteSchema ∨
        sch = updateNoteSchema →
      ∀ p : Payload,
        (violationMessages sch p = [] → validate sch p = .ok p) ∧
        (violationMessages sch p ≠ [] →
          validate sch p = .error ⟨joinMsgs (violationMessages sch p), 400⟩ ∧
          ∀ m ∈ violationMessages sch p,
            isSubstr m.data (joinMsgs (violationMessages sch p)).data = true)) ∧
    validate signupSchema [("username", "ab"), ("password", "123")] =
      .error ⟨"Username must be at least 3 characters long., Password must be at least 6 characters long.", 400⟩ := by
  constructor
  · intro sch _ p
    constructor
    · intro h
      simp [validate, h]
    · intro h
      constructor
      · unfold validate
        cases hv : violationMessages sch p with
        | nil => exact absurd hv h
        | cons a rest => simp
      · intro m hm
        exact mem_joinMsgs_isSubstr hm
  · decide

/-- Witness for C9: the update-note schema accepts a one-field payload and
returns it, and a signup payload with two invalid fields is rejected with
both rule messages joined in one 400 message. -/
theorem validationAccumulates_witness :
    validate updateNoteSchema [("title", "New")] = .ok [("title", "New")] ∧
    validate signupSchema [("username", "ab"), ("password", "123")] =
      .error ⟨joinMsgs (violationMessages signupSchema
        [("username", "ab"), ("password", "123")]), 400⟩ ∧
    isSubstr ("Username must be at least 3 characters long.").data
      (joinMsgs (violationMessages signupSchema
        [("username", "ab"), ("password", "123")])).data = true ∧
    isSubstr ("Password must be at least 6 characters long.").data
      (joinMsgs (violationMessages signupSchema
        [("username", "ab"), ("password", "123")])).data = true :=
  ⟨(validationAccumulates.1 updateNoteSchema (Or.inr (Or.inr (Or.inr rfl)))
      [("title", "New")]).1 (by decide),
   ((validationAccumulates.1 signupSchema (Or.inl rfl)
      [("username", "ab"), ("password", "123")]).2 (by decide)).1,
   ((validationAccumulates.1 signupSchema (Or.inl rfl)
      [("username", "ab"), ("password", "123")]).2 (by decide)).2
     "Username must be at least 3 characters long." (by decide),
   ((validationAccumulates.1 signupSchema (Or.inl rfl)
      [("username", "ab"), ("password", "123")]).2 (by decide)).2
     "Password must be at least 6 characters long." (by decide)⟩

/-- Unfolding of LIKE matching at a leading `%`: the rest of the pattern
may resume at any suffix of the string. -/
theorem likeMatch_pct_cons (ps s : List Char) :
    likeMatch ('%' :: ps) s = (suffixesL s).any (fun t => likeMatch ps t) := by
  rw [likeMatch.eq_def]
  simp

/-- A wildcard- and escape-free pattern followed by a single `%` matches
exactly the strings it is a prefix of. -/
theorem likeMatch_lit_pct (p : List Char) (hp : noWild p = true) :
    ∀ s, likeMatch (p ++ ['%']) s = startsWithL p s := by
  induction p with
  | nil =>
    intro s
    have hw : ∀ s2 : List Char, likeMatch ['%'] s2 = true := by
      intro s2
      induction s2 with
      | nil => decide
      | cons c rest ih =>
        rw [likeMatch_pct_cons] at ih ⊢
        simp [suffixesL]
        right
        simpa using ih
    simp [hw, startsWithL]
  | cons c cs ih =>
    intro s
    rw [noWild, List.all_cons, Bool.and_eq_true] at hp
    obtain ⟨hc, hcs⟩ := hp
    simp only [Bool.not_eq_true', Bool.or_eq_false_iff, beq_eq_false_iff_ne,
      ne_eq] at hc
    obtain ⟨⟨hc1, hc2⟩, hc3⟩ := hc
    have hcs2 : noWild cs = true := hcs
    cases s with
    | nil =>
      rw [likeMatch.eq_def]
      simp [startsWithL, hc1, hc3]
    | cons d s2 =>
      rw [likeMatch.eq_def]
      simp [startsWithL, hc1, hc2, hc3, ih hcs2 s2]

/-- For a wildcard- and escape-free term, the pattern `%term%` matches a
string under LIKE exactly when the term occurs in it as a contiguous
substring. -/
theorem likeMatch_pct_wrap (p : List Char) (hp : noWild p = true) :
    ∀ s, likeMatch ('%' :: (p ++ ['%'])) s = isSubstr p s := by
  intro s
  induction s with
  | nil =>
    rw [likeMatch_pct_cons]
    simp [suffixesL, isSubstr, likeMatch_lit_pct p hp]
  | cons c s2 ih =>
    rw [likeMatch_pct_cons] at ih ⊢
    simp only [suffixesL, List.any_cons]
    rw [ih]
    simp [isSubstr, likeMatch_lit_pct p hp]

/-- Membership is preserved by descending insertion. -/
theorem mem_insertDesc (x n : Note) (l : List Note) :
    x ∈ insertDesc n l ↔ x = n ∨ x ∈ l := by
  induction l with
  | nil => simp [insertDesc]
  | cons m ms ih =>
    by_cases h : m.modifiedAt ≤ n.modifiedAt <;>
      simp [insertDesc, h, ih] <;> tauto

/-- Membership is preserved by the descending sort. -/
theorem mem_sortByModifiedDesc (x : Note) (l : List Note) :
    x ∈ sortByModifiedDesc l ↔ x ∈ l := by
  induction l with
  | nil => simp [sortByModifiedDesc]
  | cons c l ih =>
    have hstep : sortByModifiedDesc (c :: l) = insertDesc c (sortByModifiedDesc l) := rfl
    rw [hstep, mem_insertDesc, ih]
    simp

/-- Descending insertion preserves descending order. -/
theorem pairwise_insertDesc (n : Note) (l : List Note)
    (h : l.Pairwise (fun a b => b.modifiedAt ≤ a.modifiedAt)) :
    (insertDesc n l).Pairwise (fun a b => b.modifiedAt ≤ a.modifiedAt) := by
  induction l with
  | nil => simp [insertDesc]
  | cons m ms ih =>
    rcases List.pairwise_cons.mp h with ⟨hm, hms⟩
    by_cases hc : m.modifiedAt ≤ n.modifiedAt
    · rw [insertDesc, if_pos hc, List.pairwise_cons]
      refine ⟨?_, h⟩
      intro x hx
      rcases List.mem_cons.mp hx with rfl | hx2
      · exact hc
      · exact le_trans (hm x hx2) hc
    · rw [insertDesc, if_neg hc, List.pairwise_cons]
      refine ⟨?_, ih hms⟩
      intro x hx
      rcases (mem_insertDesc x n ms).mp hx with rfl | hx2
      · exact le_of_not_le hc
      · exact hm x hx2

/-- The descending sort produces a most-recently-modified-first list. -/
theorem pairwise_sortByModifiedDesc (l : List Note) :
    (sortByModifiedDesc l).Pairwise (fun a b => b.modifiedAt ≤ a.modifiedAt) := by
  induction l with
  | nil => simp [sortByModifiedDesc]
  | cons c l ih => exact pairwise_insertDesc c (sortByModifiedDesc l) ih

/-- Counterexample to C7 as stated.  The search term is interpolated into
an ILIKE pattern, so a wildcard character in the term does not behave as a
literal substring character: searching for the non-empty, non-whitespace
term "%" returns a note titled "abc" although "abc" does not contain "%"
as a substring — the implementation disagrees with the claim's
case-insensitive-substring filter at this input. -/
theorem searchWildcardCounterexample :
    ("%" : String) ≠ "" ∧ trimL ("%" : String).data ≠ [] ∧
    searchNotesByTitle [⟨1, 7, "abc", "t", 0, 1⟩] 7 "%"
      = [⟨1, 7, "abc", "t", 0, 1⟩] ∧
    specSearchNotes [⟨1, 7, "abc", "t", 0, 1⟩] 7 "%" = [] ∧
    searchNotesByTitle [⟨1, 7, "abc", "t", 0, 1⟩] 7 "%"
      ≠ specSearchNotes [⟨1, 7, "abc", "t", 0, 1⟩] 7 "%" := by
  decide

/-- The ILIKE pattern built by the model layer, over lowered characters. -/
theorem ilikeMatch_pattern_eq (t s : String) :
    ilikeMatch ("%" ++ t ++ "%") s
      = likeMatch ('%' :: (lcList t.data ++ ['%'])) (lcList s.data) := by
  have hd : (("%" ++ t) ++ "%").data = ('%' :: t.data) ++ ['%'] := by
    rw [String.data_append, String.data_append]
    rfl
  have hlc : Char.toLower '%' = '%' := by decide
  simp [ilikeMatch, lcList, hd, hlc]

/-- C7 as amended.  A missing, empty or whitespace-only term is rejected
with the 400 BadRequest before any storage access; otherwise the call
succeeds (zero matches included, with the no-matches message) returning
exactly the caller's notes whose title matches the ILIKE pattern
`%term%` (with PostgreSQL's default backslash escape) — for terms free of
the LIKE wildcards `%` and `_` and of the escape character `\` this is
precisely case-insensitive substring containment of the term in the
title — ordered most-recently-modified first. -/
theorem searchNotesAmended (db : List Note) (userId : Nat) :
    (searchNotesController db userId none
       = .error ⟨"Search query (q) is required.", 400⟩) ∧
    (∀ term : String, trimL term.data = [] →
       searchNotesController db userId (some term)
         = .error ⟨"Search query (q) is required.", 400⟩) ∧
    (∀ term : String, trimL term.data ≠ [] →
       searchNotesController db userId (some term)
         = .ok (if (searchNotesByTitle db userId term).length = 0 then
                  "No notes found matching your search criteria."
                else "Notes found successfully!",
                searchNotesByTitle db userId term)) ∧
    (∀ (term : String) (n : Note),
       n ∈ searchNotesByTitle db userId term ↔
         n ∈ db ∧ n.userId = userId ∧
           ilikeMatch ("%" ++ term ++ "%") n.title = true) ∧
    (∀ term : String,
       (searchNotesByTitle db userId term).Pairwise
         (fun a b => b.modifiedAt ≤ a.modifiedAt)) ∧
    (∀ (term : String) (n : Note), noWild (lcList term.data) = true →
       (n ∈ searchNotesByTitle db userId term ↔
         n ∈ db ∧ n.userId = userId ∧
           isSubstr (lcList term.data) (lcList n.title.data) = true)) := by
  refine ⟨rfl, ?_, ?_, ?_, ?_, ?_⟩
  · intro term ht
    simp [searchNotesController, ht]
  · intro term ht
    have hne : ¬(term = "" ∨ trimL term.data = []) := by
      rintro (rfl | h)
      · exact ht rfl
      · exact ht h
    simp only [searchNotesController, if_neg hne]
  · intro term n
    simp only [searchNotesByTitle]
    rw [mem_sortByModifiedDesc, List.mem_filter]
    simp [Bool.and_eq_true]
  · intro term
    exact pairwise_sortByModifiedDesc _
  · intro term n hw
    have hpat : ilikeMatch ("%" ++ term ++ "%") n.title
        = isSubstr (lcList term.data) (lcList n.title.data) := by
      rw [ilikeMatch_pattern_eq, likeMatch_pct_wrap (lcList term.data) hw]
    simp only [searchNotesByTitle]
    rw [mem_sortByModifiedDesc, List.mem_filter, hpat]
    simp [Bool.and_eq_true]

/-- Witness for C7 (amended): a whitespace-only term is rejected; the term
"shop" (wildcard- and escape-free) succeeds with exactly the one matching
note of caller 7, found case-insensitively as a substring of
"Shopping list". -/
theorem searchNotesAmended_witness :
    searchNotesController
        [⟨1, 7, "Shopping list", "t", 0, 5⟩, ⟨2, 8, "shop", "t", 0, 9⟩] 7
        (some " ")
      = .error ⟨"Search query (q) is required.", 400⟩ ∧
    searchNotesController
        [⟨1, 7, "Shopping list", "t", 0, 5⟩, ⟨2, 8, "shop", "t", 0, 9⟩] 7
        (some "shop")
      = .ok ("Notes found successfully!", [⟨1, 7, "Shopping list", "t", 0, 5⟩]) ∧
    ((⟨1, 7, "Shopping list", "t", 0, 5⟩ : Note) ∈
        searchNotesByTitle
          [⟨1, 7, "Shopping list", "t", 0, 5⟩, ⟨2, 8, "shop", "t", 0, 9⟩] 7
          "shop" ↔
      (⟨1, 7, "Shopping list", "t", 0, 5⟩ : Note) ∈
          [(⟨1, 7, "Shopping list", "t", 0, 5⟩ : Note), ⟨2, 8, "shop", "t", 0, 9⟩] ∧
        (⟨1, 7, "Shopping list", "t", 0, 5⟩ : Note).userId = 7 ∧
        isSubstr (lcList ("shop" : String).data)
          (lcList (⟨1, 7, "Shopping list", "t", 0, 5⟩ : Note).title.data) = true) := by
  refine ⟨?_, ?_, ?_⟩
  · exact (searchNotesAmended
      [⟨1, 7, "Shopping list", "t", 0, 5⟩, ⟨2, 8, "shop", "t", 0, 9⟩] 7).2.1
      " " (by decide)
  · rw [(searchNotesAmended
      [⟨1, 7, "Shopping list", "t", 0, 5⟩, ⟨2, 8, "shop", "t", 0, 9⟩] 7).2.2.1
      "shop" (by decide)]
    decide
  · exact (searchNotesAmended
      [⟨1, 7, "Shopping list", "t", 0, 5⟩, ⟨2, 8, "shop", "t", 0, 9⟩] 7).2.2.2.2.2
      "shop" ⟨1, 7, "Shopping list", "t", 0, 5⟩ (by decide)
